import Mathlib

/-!
Verification of the sheet reconciliation core of the canonfire client.

The embedding follows the source of `src/sheets/sheet.js` (class `Sheet`) and
the `CharacterSheetWindow.load` lifecycle method. JavaScript objects holding
field data are modelled as association lists from string keys to scalar
values; reading an absent property yields `none`, standing for `undefined`.
Writes to the DOM (`element.value = …`, `titleNode.textContent = …`), console
logging, toast notifications, outbound API requests and batched-queue pushes
are recorded as an explicit effect trace, so that the frame properties of each
operation can be stated and checked.
-/

namespace Canonfire

/-- A JavaScript scalar value as stored in an entity record: string, number
(modelled as an integer) or boolean. -/
inductive JsVal where
  | str : String → JsVal
  | num : Int → JsVal
  | bool : Bool → JsVal
deriving DecidableEq, Repr

/-- A JavaScript object with scalar fields: an association list from property
key to value. Reading an absent key yields `none` (JS `undefined`). -/
abbrev JsObj := List (String × JsVal)

/-- Property read `obj[key]`: `none` models JS `undefined` for absent keys. -/
def jsGet : JsObj → String → Option JsVal
  | [], _ => none
  | (k, v) :: rest, key => if k = key then some v else jsGet rest key

/-- Property write `obj[key] = v`: replaces the value when the key is present,
otherwise appends the new property. -/
def jsSet : JsObj → String → JsVal → JsObj
  | [], key, v => [(key, v)]
  | (k, w) :: rest, key, v =>
    if k = key then (k, v) :: rest else (k, w) :: jsSet rest key v

/-- String coercion applied by the DOM setters `element.value = x` and
`titleNode.textContent = x`: `undefined` becomes the string "undefined",
numbers and booleans their decimal and literal spellings. -/
def jsToString : Option JsVal → String
  | none => "undefined"
  | some (.str s) => s
  | some (.num n) => toString n
  | some (.bool b) => if b then "true" else "false"

/-- An HTML input element as the sheet sees it: its displayed `value` string
and whether it currently has keyboard focus. -/
structure InputElement where
  value : String
  focused : Bool
deriving DecidableEq, Repr

/-- The DOM state a `Sheet` can touch: the bound input elements, stored with
their field keys in registration order exactly as `this.inputs`, and the
window title text. -/
structure SheetDom where
  inputs : List (String × InputElement)
  title : String
deriving DecidableEq, Repr

/-- One observable side effect of the sheet code. -/
inductive Effect where
  /-- `this.window.titleNode.textContent = s` -/
  | setTitle : String → Effect
  /-- `element.value = s` for the element bound to the given field key -/
  | setValue : String → String → Effect
  /-- `ApiRequest(path, payload)`: an outbound request -/
  | apiRequest : String → JsObj → Effect
  /-- `AddCharacterUpdate(payload)`: enqueue into the batched update queue -/
  | addCharacterUpdate : JsObj → Effect
  /-- `console.error(msg)` -/
  | consoleError : String → Effect
  /-- `ErrorToast(msg)` -/
  | errorToast : String → Effect
  /-- `element.addEventListener("input", …)` for the given field key -/
  | attachInputListener : String → Effect
  /-- dynamic `import` of the per-game-system sheet module -/
  | loadSheetModule : String → Effect
  /-- `Templates.loadCss(file)` -/
  | loadCssFile : String → Effect
  /-- `Templates.loadHtml(file)` appended to the window content -/
  | loadHtmlFile : String → Effect
  /-- `new sheetClass(characterData.id, this)` -/
  | sheetCreated : Effect
  /-- `sheet.onLoad(characterData)` -/
  | sheetOnLoad : Effect
  /-- `sheet.addListeners()` -/
  | sheetAddListeners : Effect
  /-- `sheet.update(characterData)` -/
  | sheetUpdateCall : Effect
  /-- `this.subscribe(id, handler)` -/
  | subscribeTo : String → Effect
deriving DecidableEq, Repr

/-- The loop body of `Sheet.update`:
`for (const [key, element] of this.inputs) { if (data[key] !== this.cachedData[key]) { element.value = data[key]; } }`.
Returns the updated element list together with the `element.value` writes it
performs, in loop order. -/
def updateInputsLoop (cached data : JsObj) :
    List (String × InputElement) → List (String × InputElement) × List Effect
  | [] => ([], [])
  | (key, element) :: rest =>
    if jsGet data key ≠ jsGet cached key then
      ((key, { element with value := jsToString (jsGet data key) }) ::
         (updateInputsLoop cached data rest).1,
       Effect.setValue key (jsToString (jsGet data key)) ::
         (updateInputsLoop cached data rest).2)
    else
      ((key, element) :: (updateInputsLoop cached data rest).1,
       (updateInputsLoop cached data rest).2)

/-- `Sheet.update(data)` from `src/sheets/sheet.js`:
first `if (data.name !== this.cachedData.name) { this.window.titleNode.textContent = data.name; }`,
then the loop over `this.inputs`. `cached` is `this.cachedData`; the method
only reads it and never assigns to it, which the return type records: the new
DOM state and the effect trace are produced, the cache is left to the caller
unchanged. -/
def Sheet.update (cached data : JsObj) (dom : SheetDom) : SheetDom × List Effect :=
  let titlePart : String × List Effect :=
    if jsGet data "name" ≠ jsGet cached "name" then
      (jsToString (jsGet data "name"),
       [Effect.setTitle (jsToString (jsGet data "name"))])
    else
      (dom.title, [])
  let body := updateInputsLoop cached data dom.inputs
  ({ inputs := body.1, title := titlePart.1 }, titlePart.2 ++ body.2)

/-- The field keys whose bound element is written during a trace: the keys of
the `setValue` effects. -/
def writtenKeys (effects : List Effect) : List String :=
  effects.filterMap fun e =>
    match e with
    | .setValue k _ => some k
    | _ => none

/-- `Sheet.registerBatchedInput(selector, key)`:
`const element = this.window.content.querySelector(selector);` — here `query`
stands for `querySelector` on the window content; on `null` it logs with
`console.error` and returns `null` without touching `this.inputs`; otherwise
it attaches the input listener, pushes `[key, element]` onto `this.inputs` and
returns the element. Result: (return value, new `this.inputs`, effects). -/
def Sheet.registerBatchedInput (query : String → Option InputElement)
    (selector key : String) (inputs : List (String × InputElement)) :
    Option InputElement × List (String × InputElement) × List Effect :=
  match query selector with
  | none =>
    (none, inputs,
     [Effect.consoleError ("Can\x27t find \"" ++ selector ++ "\" in character sheet")])
  | some element =>
    (some element, inputs ++ [(key, element)], [Effect.attachInputListener key])

/-- `Sheet.registerInput(selector, key)`: identical registration-time behavior
to `registerBatchedInput` (the two differ only in the listener closure they
install, modelled separately below). -/
def Sheet.registerInput (query : String → Option InputElement)
    (selector key : String) (inputs : List (String × InputElement)) :
    Option InputElement × List (String × InputElement) × List Effect :=
  match query selector with
  | none =>
    (none, inputs,
     [Effect.consoleError ("Can\x27t find \"" ++ selector ++ "\" in character sheet")])
  | some element =>
    (some element, inputs ++ [(key, element)], [Effect.attachInputListener key])

/-- The payload both listener closures build on an input event:
`const update = { id: this.id }; update[key] = element.value;`. -/
def listenerPayload (id key elementValue : String) : JsObj :=
  jsSet [("id", JsVal.str id)] key (JsVal.str elementValue)

/-- The closure `registerInput` attaches: on each input event it runs
`await ApiRequest("/character/update", update)` with the payload built from
the element's current value. -/
def immediateInputListener (id key elementValue : String) : List Effect :=
  [Effect.apiRequest "/character/update" (listenerPayload id key elementValue)]

/-- The closure `registerBatchedInput` attaches: on each input event it runs
`AddCharacterUpdate(update)`, enqueueing the payload into the batched update
queue instead of sending it. -/
def batchedInputListener (id key elementValue : String) : List Effect :=
  [Effect.addCharacterUpdate (listenerPayload id key elementValue)]

/-- The response object of `ApiRequest("/character/get", { id })`. -/
structure FetchResponse where
  status : String
  character : JsObj
deriving DecidableEq, Repr

/-- `CharacterSheetWindow.load(id)` from the point where the
`await ApiRequest("/character/get", { id })` suspension resumes with
`response`: on a non-success status it shows one error toast and returns;
otherwise it sets the title, dynamically imports the per-system sheet module,
loads its CSS and HTML, instantiates the sheet class, calls `onLoad`,
`addListeners` and `update`, and finally subscribes to the entity id. -/
def CharacterSheetWindow.load (id : String) (resp : FetchResponse) : List Effect :=
  if resp.status ≠ "success" then
    [Effect.errorToast "Character loading failed!"]
  else
    let characterData := resp.character
    let sheetType := jsToString (jsGet characterData "sheet_type")
    [Effect.setTitle (jsToString (jsGet characterData "name")),
     Effect.loadSheetModule sheetType,
     Effect.loadCssFile (sheetType ++ "-sheet.css"),
     Effect.loadHtmlFile (sheetType ++ "-sheet.html"),
     Effect.sheetCreated,
     Effect.sheetOnLoad,
     Effect.sheetAddListeners,
     Effect.sheetUpdateCall,
     Effect.subscribeTo id]

/-- The continuation of `load` that runs when the character-fetch `await`
resumes. `windowClosed` records whether `close()` ran while `load` was
suspended on the fetch: the source of `load` never consults any closed flag
after its suspension points, so the continuation is the same code either
way. -/
def CharacterSheetWindow.loadResumption (windowClosed : Bool) (id : String)
    (resp : FetchResponse) : List Effect :=
  CharacterSheetWindow.load id resp

/-! ## Helper lemmas about the reconciliation loop -/

/-- Every effect emitted by the input loop of `Sheet.update` is an
`element.value` write. -/
theorem updateInputsLoop_effects_are_writes (cached data : JsObj)
    (l : List (String × InputElement)) :
    ∀ e ∈ (updateInputsLoop cached data l).2, ∃ k s, e = Effect.setValue k s := by
  induction l with
  | nil =>
    intro e he
    simp [updateInputsLoop] at he
  | cons p rest ih =>
    obtain ⟨key, element⟩ := p
    intro e he
    by_cases hd : jsGet data key ≠ jsGet cached key
    · rw [updateInputsLoop, if_pos hd] at he
      rcases List.mem_cons.1 he with h1 | h2
      · exact ⟨key, jsToString (jsGet data key), h1⟩
      · exact ih e h2
    · rw [updateInputsLoop, if_neg hd] at he
      exact ih e he

/-- A key is written by the input loop exactly when it is bound and the
payload and cache disagree on it (absent keys reading as `undefined`). -/
theorem mem_writtenKeys_updateInputsLoop (cached data : JsObj)
    (l : List (String × InputElement)) (k : String) :
    k ∈ writtenKeys (updateInputsLoop cached data l).2 ↔
      ((∃ e : InputElement, (k, e) ∈ l) ∧ jsGet data k ≠ jsGet cached k) := by
  induction l with
  | nil => simp [updateInputsLoop, writtenKeys]
  | cons p rest ih =>
    obtain ⟨key, element⟩ := p
    by_cases hd : jsGet data key ≠ jsGet cached key
    · rw [updateInputsLoop, if_pos hd]
      have hw : writtenKeys
          (Effect.setValue key (jsToString (jsGet data key)) ::
            (updateInputsLoop cached data rest).2) =
          key :: writtenKeys (updateInputsLoop cached data rest).2 := by
        simp [writtenKeys]
      rw [hw]
      constructor
      · intro hk
        rcases List.mem_cons.1 hk with h1 | h2
        · subst h1
          exact ⟨⟨element, List.mem_cons_self _ _⟩, hd⟩
        · obtain ⟨⟨e, he⟩, hne⟩ := ih.1 h2
          exact ⟨⟨e, List.mem_cons_of_mem _ he⟩, hne⟩
      · rintro ⟨⟨e, he⟩, hne⟩
        rcases List.mem_cons.1 he with h1 | h2
        · have hkey : k = key := by
            have := congrArg Prod.fst h1
            simpa using this
          exact List.mem_cons.2 (Or.inl hkey)
        · exact List.mem_cons.2 (Or.inr (ih.2 ⟨⟨e, h2⟩, hne⟩))
    · rw [updateInputsLoop, if_neg hd]
      rw [ih]
      constructor
      · rintro ⟨⟨e, he⟩, hne⟩
        exact ⟨⟨e, List.mem_cons_of_mem _ he⟩, hne⟩
      · rintro ⟨⟨e, he⟩, hne⟩
        rcases List.mem_cons.1 he with h1 | h2
        · have hkey : k = key := by
            have := congrArg Prod.fst h1
            simpa using this
          subst hkey
          exact absurd hne hd
        · exact ⟨⟨e, h2⟩, hne⟩

/-- The element list produced by the input loop, as a pointwise map: elements
on which payload and cache disagree get the payload's value (coerced to a
string), the others are untouched. -/
theorem updateInputsLoop_fst (cached data : JsObj) (l : List (String × InputElement)) :
    (updateInputsLoop cached data l).1 =
      l.map (fun p =>
        if jsGet data p.1 ≠ jsGet cached p.1 then
          (p.1, { p.2 with value := jsToString (jsGet data p.1) })
        else p) := by
  induction l with
  | nil => simp [updateInputsLoop]
  | cons p rest ih =>
    obtain ⟨key, element⟩ := p
    by_cases hd : jsGet data key ≠ jsGet cached key
    · rw [updateInputsLoop, if_pos hd]
      simp [hd, ih]
    · rw [updateInputsLoop, if_neg hd]
      have heq : jsGet data key = jsGet cached key := not_ne_iff.mp hd
      simp [heq, ih]

/-- Disagreement between two optional values, spelled out: either the first is
present and differs from the second, or the first is absent and the second is
present. -/
theorem option_ne_iff (a b : Option JsVal) :
    a ≠ b ↔
      ((∃ v, a = some v ∧ b ≠ some v) ∨ (a = none ∧ ∃ w, b = some w)) := by
  cases a <;> cases b <;> simp [eq_comm]

/-- The trace of `Sheet.update` splits into the title write and the loop
writes. -/
theorem update_trace_eq (cached data : JsObj) (dom : SheetDom) :
    (Sheet.update cached data dom).2 =
      (if jsGet data "name" ≠ jsGet cached "name" then
        [Effect.setTitle (jsToString (jsGet data "name"))]
       else []) ++ (updateInputsLoop cached data dom.inputs).2 := by
  by_cases ht : jsGet data "name" ≠ jsGet cached "name" <;>
    simp [Sheet.update, ht]

/-- The element list of the DOM state returned by `Sheet.update` is the one
produced by the input loop. -/
theorem update_inputs_eq (cached data : JsObj) (dom : SheetDom) :
    (Sheet.update cached data dom).1.inputs =
      (updateInputsLoop cached data dom.inputs).1 := by
  by_cases ht : jsGet data "name" ≠ jsGet cached "name" <;>
    simp [Sheet.update, ht]

/-! ## Claim theorems -/

/-- C1: the focus-guard stated by the spec is absent from `Sheet.update`. At a
concrete state where the bound "hp" element currently has focus and displays
"4", a call with a payload carrying "5" for "hp" overwrites the displayed
value, so an in-progress keystroke is clobbered. -/
theorem update_overwrites_focused_element :
    Sheet.update [] [("hp", JsVal.str "5")]
      { inputs := [("hp", { value := "4", focused := true })], title := "T" } =
    ({ inputs := [("hp", { value := "5", focused := true })], title := "T" },
     [Effect.setValue "hp" "5"]) := by decide

/-- C2: `Sheet.update` never writes `this.cachedData` (its result carries only
the new DOM state and the effect trace; the cache argument is read-only). At a
concrete input the bound "hp" element ends up displaying "5" while the cache
entry for "hp" is still absent, so the claimed cache-equals-display invariant
fails immediately after the call. -/
theorem update_leaves_cache_stale :
    ((Sheet.update [] [("hp", JsVal.str "5")]
        { inputs := [("hp", { value := "", focused := false })], title := "" }).1.inputs =
      [("hp", { value := "5", focused := false })]) ∧
    jsGet ([] : JsObj) "hp" = none := by decide

/-- C3: applying the same payload twice is not idempotent. Because
`Sheet.update` never advances `this.cachedData`, the second call with the same
payload repeats the very same title and element writes instead of finding an
empty changed set. -/
theorem second_update_repeats_writes :
    (Sheet.update [] [("name", JsVal.str "Zog"), ("hp", JsVal.str "5")]
      (Sheet.update [] [("name", JsVal.str "Zog"), ("hp", JsVal.str "5")]
        { inputs := [("hp", { value := "", focused := false })], title := "" }).1).2 =
    [Effect.setTitle "Zog", Effect.setValue "hp" "5"] := by decide

/-- C4 counterexample: with cache `{hp: 10}` and the empty payload, the key
"hp" is not present in the payload, yet the reconciliation pass counts it as
changed and writes its bound element — with the string "undefined" — because
`data[key] !== cachedData[key]` compares `undefined` against `10`. -/
theorem written_key_absent_from_payload :
    (jsGet ([] : JsObj) "hp" = none) ∧
    writtenKeys (Sheet.update [("hp", JsVal.num 10)] []
        { inputs := [("hp", { value := "10", focused := false })], title := "T" }).2 =
      ["hp"] ∧
    (Sheet.update [("hp", JsVal.num 10)] []
        { inputs := [("hp", { value := "10", focused := false })], title := "T" }).1.inputs =
      [("hp", { value := "undefined", focused := false })] := by decide

/-- C4 amended: the set of keys whose bound element is written by
`Sheet.update` is exactly the set of bound keys on which payload and cache
disagree with absent keys read as `undefined`: keys present in the payload
whose value differs from the cache (including keys absent from the cache),
plus bound keys absent from the payload but present in the cache (these are
overwritten with the string "undefined"); keys on which payload and cache
agree are never written, and the untouched elements keep their value. -/
theorem written_keys_exact (cached data : JsObj) (dom : SheetDom) :
    (∀ k : String,
      k ∈ writtenKeys (Sheet.update cached data dom).2 ↔
        ((∃ e : InputElement, (k, e) ∈ dom.inputs) ∧
         ((∃ v, jsGet data k = some v ∧ jsGet cached k ≠ some v) ∨
          (jsGet data k = none ∧ ∃ w, jsGet cached k = some w)))) ∧
    (Sheet.update cached data dom).1.inputs =
      dom.inputs.map (fun p =>
        if jsGet data p.1 ≠ jsGet cached p.1 then
          (p.1, { p.2 with value := jsToString (jsGet data p.1) })
        else p) := by
  constructor
  · intro k
    have hsplit : writtenKeys (Sheet.update cached data dom).2 =
        writtenKeys (updateInputsLoop cached data dom.inputs).2 := by
      rw [update_trace_eq]
      by_cases ht : jsGet data "name" ≠ jsGet cached "name" <;>
        simp [ht, writtenKeys]
    rw [hsplit, mem_writtenKeys_updateInputsLoop, option_ne_iff]
  · rw [update_inputs_eq, updateInputsLoop_fst]

/-- C5: `Sheet.update` performs no entity-id validation: a payload missing the
entity id is neither logged nor dropped, it is reconciled like any other. At a
concrete input the payload `{name: "Zog"}` has no "id" property, yet the call
still rewrites the window title, and the trace contains no `console.error`. -/
theorem payload_missing_id_not_dropped :
    (jsGet [("name", JsVal.str "Zog")] "id" = none) ∧
    Sheet.update [] [("name", JsVal.str "Zog")] { inputs := [], title := "Old" } =
      ({ inputs := [], title := "Zog" }, [Effect.setTitle "Zog"]) := by decide

/-- C6: the continuation of `CharacterSheetWindow.load` after the character
fetch never re-checks whether the window was closed during the suspension: it
is the same code whether or not `close()` ran, and on a successful response it
still rebuilds the DOM and creates the subscription against the closed
sheet. -/
theorem load_resumption_ignores_window_closed :
    (∀ (windowClosed : Bool) (id : String) (resp : FetchResponse),
        CharacterSheetWindow.loadResumption windowClosed id resp =
          CharacterSheetWindow.load id resp) ∧
    Effect.subscribeTo "c1" ∈
      CharacterSheetWindow.loadResumption true "c1"
        { status := "success",
          character := [("name", JsVal.str "Zog"), ("sheet_type", JsVal.str "generic")] } := by
  exact ⟨fun _ _ _ => rfl, by decide⟩

/-- C7: when the initial character fetch reports a non-success status, `load`
shows the error toast exactly once and stops: no subscription is created, the
sheet class is never instantiated, and no listeners are bound. -/
theorem fetch_failure_single_toast (id : String) (resp : FetchResponse)
    (h : resp.status ≠ "success") :
    CharacterSheetWindow.load id resp =
      [Effect.errorToast "Character loading failed!"] ∧
    List.count (Effect.errorToast "Character loading failed!")
      (CharacterSheetWindow.load id resp) = 1 ∧
    (∀ eid : String, Effect.subscribeTo eid ∉ CharacterSheetWindow.load id resp) ∧
    Effect.sheetCreated ∉ CharacterSheetWindow.load id resp ∧
    Effect.sheetAddListeners ∉ CharacterSheetWindow.load id resp := by
  have hl : CharacterSheetWindow.load id resp =
      [Effect.errorToast "Character loading failed!"] := by
    unfold CharacterSheetWindow.load
    rw [if_pos h]
  refine ⟨hl, ?_, ?_, ?_, ?_⟩ <;> rw [hl] <;> simp [List.count_cons]

/-- C7 witness: a concrete failed fetch. -/
theorem fetch_failure_single_toast_witness :
    CharacterSheetWindow.load "c1" { status := "failure", character := [] } =
      [Effect.errorToast "Character loading failed!"] ∧
    List.count (Effect.errorToast "Character loading failed!")
      (CharacterSheetWindow.load "c1" { status := "failure", character := [] }) = 1 ∧
    (∀ eid : String, Effect.subscribeTo eid ∉
      CharacterSheetWindow.load "c1" { status := "failure", character := [] }) ∧
    Effect.sheetCreated ∉
      CharacterSheetWindow.load "c1" { status := "failure", character := [] } ∧
    Effect.sheetAddListeners ∉
      CharacterSheetWindow.load "c1" { status := "failure", character := [] } :=
  fetch_failure_single_toast "c1" { status := "failure", character := [] } (by decide)

/-- C8: when the selector resolves to no element, both `registerInput` and
`registerBatchedInput` return `null`, log one `console.error`, attach no
listener and leave `this.inputs` — the binding set — unchanged, so the other
bindings of the sheet are unaffected; both functions are total, so no
exception is raised. -/
theorem register_missing_selector_noop (query : String → Option InputElement)
    (selector key : String) (inputs : List (String × InputElement))
    (h : query selector = none) :
    Sheet.registerInput query selector key inputs =
      (none, inputs,
       [Effect.consoleError ("Can\x27t find \"" ++ selector ++ "\" in character sheet")]) ∧
    Sheet.registerBatchedInput query selector key inputs =
      (none, inputs,
       [Effect.consoleError ("Can\x27t find \"" ++ selector ++ "\" in character sheet")]) ∧
    (∀ k : String,
      Effect.attachInputListener k ∉ (Sheet.registerInput query selector key inputs).2.2) ∧
    (∀ k : String,
      Effect.attachInputListener k ∉ (Sheet.registerBatchedInput query selector key inputs).2.2) := by
  have h1 : Sheet.registerInput query selector key inputs =
      (none, inputs,
       [Effect.consoleError ("Can\x27t find \"" ++ selector ++ "\" in character sheet")]) := by
    unfold Sheet.registerInput
    rw [h]
  have h2 : Sheet.registerBatchedInput query selector key inputs =
      (none, inputs,
       [Effect.consoleError ("Can\x27t find \"" ++ selector ++ "\" in character sheet")]) := by
    unfold Sheet.registerBatchedInput
    rw [h]
  refine ⟨h1, h2, ?_, ?_⟩ <;> intro k <;> simp [h1, h2]

/-- C8 witness: a concrete sheet where ".missing-field" resolves to no
element. -/
theorem register_missing_selector_noop_witness :
    Sheet.registerInput (fun _ => none) ".missing-field" "hp" [] =
      (none, [],
       [Effect.consoleError ("Can\x27t find \"" ++ ".missing-field" ++ "\" in character sheet")]) ∧
    Sheet.registerBatchedInput (fun _ => none) ".missing-field" "hp" [] =
      (none, [],
       [Effect.consoleError ("Can\x27t find \"" ++ ".missing-field" ++ "\" in character sheet")]) ∧
    (∀ k : String, Effect.attachInputListener k ∉
      (Sheet.registerInput (fun _ => none) ".missing-field" "hp" []).2.2) ∧
    (∀ k : String, Effect.attachInputListener k ∉
      (Sheet.registerBatchedInput (fun _ => none) ".missing-field" "hp" []).2.2) :=
  register_missing_selector_noop (fun _ => none) ".missing-field" "hp" [] rfl

/-- C9: each input event on a bound field produces exactly one outbound
payload `{id, key: element.value}` carrying the element's current value: the
immediate-mode listener issues one `/character/update` request with it, the
batched-mode listener enqueues it once into the batched update queue; the
payload maps the field key to the element's value, and (unless the field key
is itself "id", which overwrites the entity id) maps "id" to the entity
id. -/
theorem input_listener_single_outbound (id key v : String) :
    immediateInputListener id key v =
      [Effect.apiRequest "/character/update" (listenerPayload id key v)] ∧
    batchedInputListener id key v =
      [Effect.addCharacterUpdate (listenerPayload id key v)] ∧
    (immediateInputListener id key v).length = 1 ∧
    (batchedInputListener id key v).length = 1 ∧
    jsGet (listenerPayload id key v) key = some (JsVal.str v) ∧
    jsGet (listenerPayload id key v) "id" =
      (if "id" = key then some (JsVal.str v) else some (JsVal.str id)) := by
  refine ⟨rfl, rfl, rfl, rfl, ?_, ?_⟩
  · by_cases hk : "id" = key
    · subst hk
      simp [listenerPayload, jsSet, jsGet]
    · simp [listenerPayload, jsSet, jsGet, hk]
  · by_cases hk : "id" = key
    · subst hk
      simp [listenerPayload, jsSet, jsGet]
    · simp [listenerPayload, jsSet, jsGet, hk]

/-- C10: reconciliation never echoes updates upstream: the trace of
`Sheet.update` contains no outbound `ApiRequest` and no batched-queue push,
whatever the payload, cache and DOM state; registration itself emits none
either, so in this model outbound update payloads arise only from the two
listener closures. -/
theorem update_emits_no_outbound (cached data : JsObj) (dom : SheetDom) :
    (∀ (path : String) (payload : JsObj),
        Effect.apiRequest path payload ∉ (Sheet.update cached data dom).2) ∧
    (∀ payload : JsObj,
        Effect.addCharacterUpdate payload ∉ (Sheet.update cached data dom).2) ∧
    (∀ (query : String → Option InputElement) (selector key : String)
        (inputs : List (String × InputElement)) (path : String) (payload : JsObj),
        Effect.apiRequest path payload ∉ (Sheet.registerInput query selector key inputs).2.2 ∧
        Effect.addCharacterUpdate payload ∉ (Sheet.registerInput query selector key inputs).2.2 ∧
        Effect.apiRequest path payload ∉ (Sheet.registerBatchedInput query selector key inputs).2.2 ∧
        Effect.addCharacterUpdate payload ∉ (Sheet.registerBatchedInput query selector key inputs).2.2) := by
  have hupd : ∀ e ∈ (Sheet.update cached data dom).2,
      (∃ s, e = Effect.setTitle s) ∨ (∃ k s, e = Effect.setValue k s) := by
    intro e he
    rw [update_trace_eq] at he
    rcases List.mem_append.1 he with h1 | h2
    · left
      by_cases ht : jsGet data "name" ≠ jsGet cached "name"
      · rw [if_pos ht] at h1
        exact ⟨jsToString (jsGet data "name"), List.mem_singleton.1 h1⟩
      · rw [if_neg ht] at h1
        exact absurd h1 (List.not_mem_nil e)
    · right
      exact updateInputsLoop_effects_are_writes cached data dom.inputs e h2
  refine ⟨?_, ?_, ?_⟩
  · intro path payload hmem
    rcases hupd _ hmem with ⟨s, hs⟩ | ⟨k, s, hs⟩ <;> simp at hs
  · intro payload hmem
    rcases hupd _ hmem with ⟨s, hs⟩ | ⟨k, s, hs⟩ <;> simp at hs
  · intro query selector key inputs path payload
    unfold Sheet.registerInput Sheet.registerBatchedInput
    cases hq : query selector <;> simp

end Canonfire
